import Mathlib

/-!
# MovingPoolImpact: the controller of `DNS/3D_Impact.c`

A shallow embedding of the set-up code of the oblique drop-impact simulation:
the parameter derivation of `main`, the geometry and velocity assignment of the
`init` event, the trigger schedules of the logging events, the file names of the
interface-extraction events and the thresholding loop of `interfaceShapeFinder`.

Numbers of type `double` are embedded in an arbitrary linearly ordered field `K`
(exact arithmetic); the libm functions `sqrt`, `sin`, `cos` and the constant
`M_PI` are parameters of the definitions that call them, and are instantiated
with `Real.sqrt`, `Real.sin`, `Real.cos`, `Real.pi` in the theorems.

The number of firings of the logging events is decided by the comparison
`t <= t_end` after repeated `t += step`, which is sensitive to rounding; their
schedules are therefore embedded in binary64 arithmetic (`toDouble`, `dadd`), a
double being represented by the rational number it denotes.
-/

namespace MovingPoolImpact

/-! ## Data model -/

/-- File-scope physical parameters of `3D_Impact.c` (lines 26-49). -/
structure Globals (K : Type) where
  rhol : K
  rhoa : K
  mul : K
  mua : K
  sig : K
  Gacc : K

/-- The initial values the source gives to the physical globals. -/
def sourceGlobals {K : Type} [LinearOrderedField K] : Globals K :=
  { rhol := 1089.0, rhoa := 1.2, mul := 3.0e-3, mua := 1.8e-5, sig := 70.3e-3, Gacc := 9.81 }

/-- Global `southPoleHeight` (line 61). -/
def southPoleHeight {K : Type} [LinearOrderedField K] : K := 0.1

/-- Command-line values read by `main` (lines 86-93), after `atoi` and `atof`. -/
structure Args (K : Type) where
  maxlevel : Int
  impact_angle : K
  Udrop : K
  Upool : K
  R0 : K
  Pool_depth : K
  domainSize : K
  t_end : K

/-- The three dimensionless groups `Re`, `Fr`, `We`. -/
structure Dimensionless (K : Type) where
  Re : K
  Fr : K
  We : K

/-- Engine-facing state written by `main` before it calls `run` (lines 99-138). -/
structure Engine (K : Type) where
  L0 : K
  originX : K
  originY : K
  originZ : K
  sigma : K
  mu1 : K
  mu2 : K
  rho1 : K
  rho2 : K
  gridN : Nat
  DT : K
  NITERMIN : Nat
  NITERMAX : Nat
  TOLERANCE : K

/-- What `main` has produced when it reaches `run()`. -/
structure Started (K : Type) where
  numbers : Dimensionless K
  engine : Engine K

/-! ## Parameter derivation (`main`) -/

section Derivation

variable {K : Type} [LinearOrderedField K]

/-- Lines 95-97 of `main`: the dimensionless numbers. -/
def derive (sqrt : K → K) (g : Globals K) (a : Args K) : Dimensionless K :=
  { Re := g.rhol * a.Udrop * a.R0 / g.mul
    Fr := a.Udrop / sqrt (g.Gacc * a.R0)
    We := g.rhol * a.Udrop * a.Udrop * a.R0 / g.sig }

/-- The body of `main` up to the call of `run()`.  The source contains no test of
its inputs and no exit path other than falling through to `run()`, so the embedding
never produces `Except.error`.  The calls `maxruntime`, `mkdir` and `fopen`, whose
results `main` does not inspect, are left out.  Division is the division of `K`. -/
def main (sqrt : K → K) (g : Globals K) (a : Args K) : Except String (Started K) :=
  let d := derive sqrt g a
  let mu1 : K := 1 / d.Re
  pure
    { numbers := d
      engine :=
        { L0 := a.domainSize
          originX := 0.0
          originY := 0.0
          originZ := -(a.domainSize / 2.0)
          sigma := 1 / d.We
          mu1 := mu1
          mu2 := mu1 / (g.mul / g.mua)
          rho1 := 1
          rho2 := 1 / (g.rhol / g.rhoa)
          gridN := 128
          DT := 1.0e-3
          NITERMIN := 1
          NITERMAX := 200
          TOLERANCE := 1e-4 } }

end Derivation

/-! ## Initial conditions (`init`) -/

section Init

variable {K : Type} [LinearOrderedField K]

/-- Basilisk `sq`. -/
def sq (x : K) : K := x * x

/-- A mesh cell: centre coordinates and refinement level. -/
structure Cell (K : Type) where
  x : K
  y : K
  z : K
  level : Int

/-- Local `dropr` of `init` (line 195). -/
def dropr : K := 1

/-- Local `dropx` of `init` (line 197). -/
def dropx : K := 0

/-- Local `dropy` of `init` (line 198). -/
def dropy (a : Args K) : K := (a.Pool_depth / a.R0) + dropr + southPoleHeight

/-- Local `dropz` of `init` (lines 199-201): the impact-angle-to-offset mapping. -/
def dropz (impact_angle : K) : K :=
  if impact_angle < 90.0 then -0.016666 * impact_angle + 1.5 else 0

/-- The expression `sq(x - dropx) + sq(y - dropy) + sq(z - dropz)` used throughout `init`. -/
def sqDist (a : Args K) (x y z : K) : K :=
  sq (x - dropx) + sq (y - dropy a) + sq (z - dropz a.impact_angle)

/-- Condition of the first `refine` call (lines 203-205). -/
def refineDrop (a : Args K) (c : Cell K) : Prop :=
  ((sqDist a c.x c.y c.z < sq (dropr * 1.025)) ∧ (sqDist a c.x c.y c.z > sq (dropr * 0.975)))
    ∧ c.level < 9

instance (a : Args K) (c : Cell K) : Decidable (refineDrop a c) := by
  unfold refineDrop; infer_instance

/-- Condition of the second `refine` call (line 206). -/
def refinePool (a : Args K) (c : Cell K) : Prop :=
  ((c.y > ((a.Pool_depth / a.R0) - 0.025)) ∧ (c.y < ((a.Pool_depth / a.R0) + 0.025)))
    ∧ c.level < 9

instance (a : Args K) (c : Cell K) : Decidable (refinePool a c) := by
  unfold refinePool; infer_instance

/-- Level of the children a `refine` call creates from a cell it selects. -/
def childLevel (c : Cell K) : Int := c.level + 1

/-- Implicit function of the pool half-space (line 210). -/
def poolFn (a : Args K) (y : K) : K := (a.Pool_depth / a.R0) - y

/-- Implicit function of the drop sphere (line 209). -/
def dropFn (a : Args K) (x y z : K) : K :=
  sq dropr - sq (x - dropx) - sq (y - dropy a) - sq (z - dropz a.impact_angle)

/-- Velocity written in the first branch of the loop (lines 221-223). -/
def dropVelocity (sin cos : K → K) (pi : K) (a : Args K) : K × K × K :=
  (0.0, -sin (pi * (a.impact_angle / 180.0)), -cos (pi * (a.impact_angle / 180.0)))

/-- Velocity written in the second branch of the loop (lines 225-227). -/
def poolVelocity (a : Args K) (f : K) : K × K × K :=
  (0.0, 0.0, (a.Upool / a.Udrop) * f)

/-- Test of the velocity loop (line 220). -/
def inDropRegion (a : Args K) (x y z : K) : Prop :=
  sqDist a x y z < 1.05 * sq dropr

instance (a : Args K) (x y z : K) : Decidable (inDropRegion a x y z) := by
  unfold inDropRegion; infer_instance

/-- Body of the velocity loop of `init` (lines 218-229) at a cell centred at `(x, y, z)`
holding volume fraction `f`. -/
def initVelocity (sin cos : K → K) (pi : K) (a : Args K) (x y z f : K) : K × K × K :=
  if inDropRegion a x y z then
    dropVelocity sin cos pi a
  else
    poolVelocity a f

/-- Norm of a velocity, as computed in the `movies` event (line 367). -/
def velnorm (sqrt : K → K) (u : K × K × K) : K :=
  sqrt (sq u.1 + sq u.2.1 + sq u.2.2)

end Init

/-! ## Time-triggered events -/

/-- A time-triggered event `event name (t = start; t += step; cond)`.  An event
declared without an end condition has `cond = fun _ => true`. -/
structure TimeEvent where
  start : ℚ
  step : ℚ
  cond : ℚ → Bool

/-- Firing times of an event from time `t` on, in exact arithmetic: the event fires
at `t` while its condition holds and then advances its time by `t += step`; at most
`fuel` firings are listed. -/
def fireFrom (ev : TimeEvent) : Nat → ℚ → List ℚ
  | 0, _ => []
  | fuel + 1, t => if ev.cond t then t :: fireFrom ev fuel (t + ev.step) else []

/-- The first `fuel` firing times of an event. -/
def firings (ev : TimeEvent) (fuel : Nat) : List ℚ := fireFrom ev fuel ev.start

/-- Inputs of the end-to-end scenario:
`9 90 1.0 0.0 1.0 2.0 8.0 0.01`. -/
def scenario {K : Type} [LinearOrderedField K] : Args K :=
  { maxlevel := 9, impact_angle := 90, Udrop := 1.0, Upool := 0.0, R0 := 1.0,
    Pool_depth := 2.0, domainSize := 8.0, t_end := 0.01 }

/-! ## File names (`sprintf` with a fixed-point conversion) -/

/-- Rounding to the nearest integer, ties to even. -/
def roundHalfEven (q : ℚ) : Int :=
  let fl : Int := ⌊q⌋
  let r : ℚ := q - fl
  if r < 1 / 2 then fl
  else if 1 / 2 < r then fl + 1
  else if fl % 2 = 0 then fl else fl + 1

/-- Left padding of a digit string with zeros up to width `p`. -/
def padZeros (p : Nat) (s : String) : String :=
  String.mk (List.replicate (p - s.length) '0') ++ s

/-- The conversion `%0.<p>f` of `printf` applied to an exact value `t`: `t` rounded
to `p` decimals, printed with exactly `p` digits after the decimal point. -/
def fmtFixed (p : Nat) (t : ℚ) : String :=
  let m : Nat := (roundHalfEven (t * (10 : ℚ) ^ p)).natAbs
  let body : String :=
    if p = 0 then Nat.repr m
    else Nat.repr (m / 10 ^ p) ++ "." ++ padZeros p (Nat.repr (m % 10 ^ p))
  if t < 0 then "-" ++ body else body

/-- The three names `saveInterfaces` builds at time `t` (lines 338-340). -/
def saveInterfacesNames (t : ℚ) : String × String × String :=
  ("Interfaces/interfacesLiquid-" ++ fmtFixed 1 t ++ ".dat",
   "Interfaces/interfacesDrop-" ++ fmtFixed 1 t ++ ".dat",
   "Interfaces/interfacesPool-" ++ fmtFixed 1 t ++ ".dat")

/-- The three names `interfaceShapeFinder` builds at time `t` (lines 301-303). -/
def interfaceShapeFinderNames (t : ℚ) : String × String × String :=
  ("Interfaces/interfacesLiquidRaw-" ++ fmtFixed 3 t ++ ".dat",
   "Interfaces/interfacesDropRaw-" ++ fmtFixed 3 t ++ ".dat",
   "Interfaces/interfacesPoolRaw-" ++ fmtFixed 3 t ++ ".dat")

/-- Trigger of `event saveInterfaces (t += 0.01)` (line 332). -/
def saveInterfaces : TimeEvent :=
  { start := 0, step := 0.01, cond := fun _ => true }

/-! ## Event times in binary64 arithmetic -/

section Raw

variable {K : Type} [LinearOrderedField K]

/-- Values of the three scratch fields `ffLiquid`, `ffDrop`, `ffPool` in one cell. -/
structure RawFields (K : Type) where
  ffLiquid : K
  ffDrop : K
  ffPool : K

/-- Body of the `foreach` loop of `interfaceShapeFinder` (lines 311-320) in a cell
at abscissa `x` with fields `f`, `drop_tracer`, `pool_tracer`; `old` is the content
of the freshly allocated scratch fields before the loop.  A field the branch does
not assign keeps its old content. -/
def thresholdCell (x f drop_tracer pool_tracer : K) (old : RawFields K) : RawFields K :=
  if x < 1e-2 then
    { ffLiquid := if f < 1.0e-6 then 0 else if f > 1 - 1.0e-6 then 1 else f
      ffDrop := if drop_tracer < 0.4 then 0 else if drop_tracer > 0.6 then 1 else drop_tracer
      ffPool := if pool_tracer < 0.4 then 0 else if pool_tracer > 0.6 then 1 else pool_tracer }
  else
    { old with ffDrop := 1.0, ffPool := 1.0 }

end Raw

/-! # Theorems -/

/-! ## Parameter derivation -/

/-- C1: for strictly positive `rhol`, `mul`, `sig`, `Gacc`, `R0` and `Udrop` (real
numbers), `main` reaches `run()` with `Re = rhol*Udrop*R0/mul`,
`Fr = Udrop/sqrt(Gacc*R0)` and `We = rhol*Udrop^2*R0/sig`, all three strictly
positive. -/
theorem main_numbers_positive (g : Globals ℝ) (a : Args ℝ)
    (hrhol : 0 < g.rhol) (hmul : 0 < g.mul) (hsig : 0 < g.sig) (hGacc : 0 < g.Gacc)
    (hR0 : 0 < a.R0) (hUdrop : 0 < a.Udrop) :
    ∃ s : Started ℝ, main Real.sqrt g a = Except.ok s ∧
      s.numbers.Re = g.rhol * a.Udrop * a.R0 / g.mul ∧
      s.numbers.Fr = a.Udrop / Real.sqrt (g.Gacc * a.R0) ∧
      s.numbers.We = g.rhol * a.Udrop ^ 2 * a.R0 / g.sig ∧
      0 < s.numbers.Re ∧ 0 < s.numbers.Fr ∧ 0 < s.numbers.We := by
  refine ⟨_, rfl, rfl, rfl, ?_, ?_, ?_, ?_⟩
  · show g.rhol * a.Udrop * a.Udrop * a.R0 / g.sig = g.rhol * a.Udrop ^ 2 * a.R0 / g.sig
    ring
  · show 0 < g.rhol * a.Udrop * a.R0 / g.mul
    positivity
  · show 0 < a.Udrop / Real.sqrt (g.Gacc * a.R0)
    exact div_pos hUdrop (Real.sqrt_pos.mpr (mul_pos hGacc hR0))
  · show 0 < g.rhol * a.Udrop * a.Udrop * a.R0 / g.sig
    positivity

/-- Witness of C1 at the physical constants of the source and the scenario inputs. -/
theorem main_numbers_positive_witness :
    ∃ s : Started ℝ, main Real.sqrt sourceGlobals scenario = Except.ok s ∧
      s.numbers.Re = (sourceGlobals : Globals ℝ).rhol * (scenario : Args ℝ).Udrop
        * (scenario : Args ℝ).R0 / (sourceGlobals : Globals ℝ).mul ∧
      s.numbers.Fr = (scenario : Args ℝ).Udrop
        / Real.sqrt ((sourceGlobals : Globals ℝ).Gacc * (scenario : Args ℝ).R0) ∧
      s.numbers.We = (sourceGlobals : Globals ℝ).rhol * (scenario : Args ℝ).Udrop ^ 2
        * (scenario : Args ℝ).R0 / (sourceGlobals : Globals ℝ).sig ∧
      0 < s.numbers.Re ∧ 0 < s.numbers.Fr ∧ 0 < s.numbers.We :=
  main_numbers_positive sourceGlobals scenario
    (by norm_num [sourceGlobals]) (by norm_num [sourceGlobals]) (by norm_num [sourceGlobals])
    (by norm_num [sourceGlobals]) (by norm_num [scenario]) (by norm_num [scenario])

/-- C4 (as stated, refuted): with `drop_velocity = -1 <= 0` the derivation gives
`Re < 0`, yet `main` returns no error: it sets `f.sigma = 1/We`, `mu1 = 1/Re` and
reaches `run()`. -/
theorem main_nonpositive_velocity_not_rejected :
    ({ (scenario : Args ℝ) with Udrop := -1 } : Args ℝ).Udrop ≤ 0 ∧
    (derive Real.sqrt sourceGlobals ({ (scenario : Args ℝ) with Udrop := -1 } : Args ℝ)).Re < 0 ∧
    (¬ ∃ e : String,
      main Real.sqrt sourceGlobals ({ (scenario : Args ℝ) with Udrop := -1 } : Args ℝ)
        = Except.error e) ∧
    ∃ s : Started ℝ,
      main Real.sqrt sourceGlobals ({ (scenario : Args ℝ) with Udrop := -1 } : Args ℝ)
        = Except.ok s ∧
      s.engine.sigma = 1 / s.numbers.We ∧ s.engine.mu1 = 1 / s.numbers.Re := by
  refine ⟨by norm_num, ?_, ?_, _, rfl, rfl, rfl⟩
  · norm_num [derive, sourceGlobals, scenario]
  · rintro ⟨e, he⟩
    simp [main, pure, Except.pure] at he

/-- C4 (amended): `main` validates nothing.  For every argument vector, whatever the
signs of `drop_velocity` and `drop_radius`, it returns no error, sets the engine
coefficients `f.sigma = 1/We` and `mu1 = 1/Re` from the derived numbers and reaches
`run()`. -/
theorem main_never_fails {K : Type} [LinearOrderedField K] (sqrt : K → K) (g : Globals K)
    (a : Args K) :
    (∀ e : String, main sqrt g a ≠ Except.error e) ∧
    ∃ s : Started K, main sqrt g a = Except.ok s ∧
      s.numbers = derive sqrt g a ∧
      s.engine.sigma = 1 / (derive sqrt g a).We ∧
      s.engine.mu1 = 1 / (derive sqrt g a).Re := by
  refine ⟨?_, _, rfl, rfl, rfl, rfl⟩
  intro e he
  simp [main, pure, Except.pure] at he

/-! ## Geometry of the initial state -/

section Geometry

variable {K : Type} [LinearOrderedField K]

theorem sq_self_nonneg (x : K) : 0 ≤ sq x := mul_self_nonneg x

theorem dropz_of_lt {angle : K} (h : angle < 90) : dropz angle = -0.016666 * angle + 1.5 := by
  have h' : angle < (90.0 : K) := by norm_num; exact h
  simp only [dropz, if_pos h']

theorem dropz_of_ge {angle : K} (h : 90 ≤ angle) : dropz angle = 0 := by
  have h' : ¬ angle < (90.0 : K) := by norm_num; exact h
  simp only [dropz, if_neg h']

/-- Every point at or below the pool surface is at squared distance at least `1.21`
from the drop centre. -/
theorem sqDist_pool_ge (a : Args K) (x y z : K) (hy : y ≤ a.Pool_depth / a.R0) :
    (1.21 : K) ≤ sqDist a x y z := by
  have h1 : 0 ≤ sq (x - dropx) := sq_self_nonneg _
  have h3 : 0 ≤ sq (z - dropz a.impact_angle) := sq_self_nonneg _
  have h2 : (1.21 : K) ≤ sq (y - dropy a) := by
    have hd : (1.1 : K) ≤ dropy a - y := by
      unfold dropy dropr southPoleHeight
      norm_num
      linarith
    unfold sq
    nlinarith
  unfold sqDist
  linarith

end Geometry

/-- C2: the impact-angle-to-offset mapping `dropz` satisfies `|dropz 15 - 1.25| < 1e-3`,
`dropz angle = 0` for every `angle >= 90` (in particular at 90), and is strictly
decreasing on `[15, 90)`. -/
theorem dropz_offset_mapping {K : Type} [LinearOrderedField K] :
    |dropz (15 : K) - 1.25| < 1e-3 ∧
    (∀ angle : K, 90 ≤ angle → dropz angle = 0) ∧
    dropz (90 : K) = 0 ∧
    (∀ a b : K, 15 ≤ a → a < b → b < 90 → dropz a > dropz b) := by
  refine ⟨?_, fun angle h => dropz_of_ge h, dropz_of_ge le_rfl, ?_⟩
  · rw [dropz_of_lt (by norm_num), abs_lt]
    constructor <;> norm_num
  · intro a b _ hab hb
    rw [dropz_of_lt (lt_trans hab hb), dropz_of_lt hb]
    have : (0.016666 : K) * a < 0.016666 * b := mul_lt_mul_of_pos_left hab (by norm_num)
    linarith

/-- Witness of C2 over the rationals: the offset vanishes at 120 degrees and
decreases from 15 to 45 degrees. -/
theorem dropz_offset_mapping_witness :
    dropz (120 : ℚ) = 0 ∧ dropz (15 : ℚ) > dropz (45 : ℚ) :=
  ⟨(dropz_offset_mapping (K := ℚ)).2.1 120 (by norm_num),
   (dropz_offset_mapping (K := ℚ)).2.2.2 15 45 (by norm_num) (by norm_num) (by norm_num)⟩

/-- C10: for `R0 > 0`, any pool depth and any impact angle, every point with
`y <= Pool_depth/R0` is at squared distance at least `1.21` from the drop centre; the
lowest point of the unit drop sphere is exactly `southPoleHeight = 0.1` above the pool
surface; no point has both implicit functions positive; and no point of the pool is in
the region that receives the drop velocity. -/
theorem drop_clear_of_pool {K : Type} [LinearOrderedField K] (a : Args K) (hR0 : 0 < a.R0) :
    (∀ x y z : K, y ≤ a.Pool_depth / a.R0 → (1.21 : K) ≤ sqDist a x y z) ∧
    ((dropy a - dropr) - a.Pool_depth / a.R0 = southPoleHeight ∧ (southPoleHeight : K) = 0.1) ∧
    (∀ x y z : K, ¬ (0 < poolFn a y ∧ 0 < dropFn a x y z)) ∧
    (∀ x y z : K, y ≤ a.Pool_depth / a.R0 → ¬ inDropRegion a x y z) ∧
    (∀ (sin cos : K → K) (pi x y z f : K), y ≤ a.Pool_depth / a.R0 →
      initVelocity sin cos pi a x y z f = poolVelocity a f) := by
  have _ := hR0
  have hfar : ∀ x y z : K, y ≤ a.Pool_depth / a.R0 → ¬ inDropRegion a x y z := by
    intro x y z hy hin
    have h := sqDist_pool_ge a x y z hy
    unfold inDropRegion sq dropr at hin
    norm_num at hin
    have : (1.21 : K) < 21 / 20 := lt_of_le_of_lt h hin
    norm_num at this
  refine ⟨fun x y z hy => sqDist_pool_ge a x y z hy, ⟨?_, rfl⟩, ?_, hfar, ?_⟩
  · unfold dropy; ring
  · rintro x y z ⟨hp, hd⟩
    have hy : y ≤ a.Pool_depth / a.R0 := by
      unfold poolFn at hp
      linarith
    have h := sqDist_pool_ge a x y z hy
    unfold dropFn at hd
    unfold sqDist at h
    have h1 : sq (dropr : K) = 1 := by simp [sq, dropr]
    rw [h1] at hd
    have : (1.21 : K) < 1 := by linarith
    norm_num at this
  · intro sin cos pi x y z f hy
    unfold initVelocity
    rw [if_neg (hfar x y z hy)]

/-- Witness of C10 at the scenario inputs (pool surface at height 2, drop centre at
height 3.1): the point `(0, 2, 0)` of the pool surface. -/
theorem drop_clear_of_pool_witness :
    (1.21 : ℚ) ≤ sqDist scenario 0 2 0 ∧ ¬ inDropRegion (scenario : Args ℚ) 0 2 0 :=
  ⟨(drop_clear_of_pool (scenario : Args ℚ) (by norm_num [scenario])).1 0 2 0
      (by norm_num [scenario]),
   (drop_clear_of_pool (scenario : Args ℚ) (by norm_num [scenario])).2.2.2.1 0 2 0
      (by norm_num [scenario])⟩

/-! ## Pre-refinement -/

/-- C8 (as stated, refuted): with `maxlevel = 9`, a level-8 cell on the pool surface
`(0, 2, 0)` and a level-8 cell on the drop surface `(0, 4.1, 0)` are both selected for
refinement although `8 < maxlevel - 1` fails; their children have level
`9 > maxlevel - 1`. -/
theorem refine_reaches_maxlevel :
    (scenario : Args ℚ).maxlevel = 9 ∧
    refinePool (scenario : Args ℚ) { x := 0, y := 2, z := 0, level := 8 } ∧
    refineDrop (scenario : Args ℚ) { x := 0, y := 4.1, z := 0, level := 8 } ∧
    ¬ ((8 : Int) < (scenario : Args ℚ).maxlevel - 1) ∧
    childLevel ({ x := 0, y := 2, z := 0, level := 8 } : Cell ℚ)
      > (scenario : Args ℚ).maxlevel - 1 := by
  refine ⟨rfl, ?_, ?_, ?_, ?_⟩
  · norm_num [refinePool, scenario]
  · norm_num [refineDrop, sqDist, sq, dropx, dropy, dropz, dropr, southPoleHeight, scenario]
  · norm_num [scenario]
  · norm_num [childLevel, scenario]

/-- C8 (amended): the two refine conditions of `init` request refinement only when the
cell level is strictly below the constant 9, so pre-refinement never creates a cell
finer than level 9; the conditions do not depend on `maxlevel`. -/
theorem refine_bounded_by_nine {K : Type} [LinearOrderedField K] (a : Args K) (c : Cell K) :
    ((refineDrop a c ∨ refinePool a c) → c.level < 9 ∧ childLevel c ≤ 9) ∧
    (∀ m : Int, (refineDrop { a with maxlevel := m } c ↔ refineDrop a c) ∧
      (refinePool { a with maxlevel := m } c ↔ refinePool a c)) := by
  refine ⟨?_, fun m => ⟨Iff.rfl, Iff.rfl⟩⟩
  intro h
  have hl : c.level < 9 := by
    rcases h with h | h
    · exact h.2
    · exact h.2
  refine ⟨hl, ?_⟩
  unfold childLevel
  omega

/-- Witness of C8 (amended): the level-8 pool-surface cell of the scenario. -/
theorem refine_bounded_by_nine_witness :
    (8 : Int) < 9 ∧ childLevel ({ x := 0, y := 2, z := 0, level := 8 } : Cell ℚ) ≤ 9 :=
  (refine_bounded_by_nine (scenario : Args ℚ) { x := 0, y := 2, z := 0, level := 8 }).1
    (Or.inr (by norm_num [refinePool, scenario]))

/-! ## Raw interface extraction -/

section RawLemmas

variable {K : Type} [LinearOrderedField K]

/-- In the half-space `x < 1e-2` the loop thresholds all three fields. -/
theorem thresholdCell_near (x f d p : K) (old : RawFields K) (hx : x < 1e-2) :
    thresholdCell x f d p old =
      { ffLiquid := if f < 1.0e-6 then 0 else if f > 1 - 1.0e-6 then 1 else f
        ffDrop := if d < 0.4 then 0 else if d > 0.6 then 1 else d
        ffPool := if p < 0.4 then 0 else if p > 0.6 then 1 else p } := by
  unfold thresholdCell
  rw [if_pos hx]

/-- In the half-space `x >= 1e-2` the loop sets `ffDrop` and `ffPool` to 1 and leaves
`ffLiquid` as it found it. -/
theorem thresholdCell_far (x f d p : K) (old : RawFields K) (hx : 1e-2 ≤ x) :
    thresholdCell x f d p old = { ffLiquid := old.ffLiquid, ffDrop := 1, ffPool := 1 } := by
  unfold thresholdCell
  rw [if_neg (not_lt.mpr hx)]
  norm_num

end RawLemmas

/-- C9 (code evaluated at the failing input): in a cell with `x = 1 >= 1e-2` the loop
assigns `ffDrop = ffPool = 1` but does not assign `ffLiquid`, whose value after the loop
is whatever the scratch field held before (here 0.25 in one run, 0.75 in another), not
a constant set by the loop. -/
theorem thresholdCell_ffLiquid_unassigned :
    thresholdCell (1 : ℚ) 0.3 0.5 0.5 { ffLiquid := 0.25, ffDrop := 0, ffPool := 0 }
      = { ffLiquid := 0.25, ffDrop := 1, ffPool := 1 } ∧
    thresholdCell (1 : ℚ) 0.3 0.5 0.5 { ffLiquid := 0.75, ffDrop := 0, ffPool := 0 }
      = { ffLiquid := 0.75, ffDrop := 1, ffPool := 1 } ∧
    (thresholdCell (1 : ℚ) 0.3 0.5 0.5 { ffLiquid := 0.25, ffDrop := 0, ffPool := 0 }).ffLiquid
      ≠ (thresholdCell (1 : ℚ) 0.3 0.5 0.5
          { ffLiquid := 0.75, ffDrop := 0, ffPool := 0 }).ffLiquid := by
  refine ⟨?_, ?_, ?_⟩ <;> norm_num [thresholdCell]

/-! ## Initial velocity -/

/-- Bounds on `sqrt 3` used for the 15 degree values. -/
theorem sqrt_three_bounds : (1.732 : ℝ) < Real.sqrt 3 ∧ Real.sqrt 3 < 1.7321 := by
  constructor
  · rw [Real.lt_sqrt (by norm_num)]
    norm_num
  · rw [Real.sqrt_lt' (by norm_num)]
    norm_num

/-- The sine and cosine of 15 degrees, to four decimals. -/
theorem sin_cos_fifteen_bounds :
    (0.2587 : ℝ) < Real.sin (Real.pi * (15 / 180)) ∧ Real.sin (Real.pi * (15 / 180)) < 0.2589 ∧
    (0.9658 : ℝ) < Real.cos (Real.pi * (15 / 180)) ∧ Real.cos (Real.pi * (15 / 180)) < 0.9660 := by
  have hpi := Real.pi_pos
  have hθ : Real.pi * (15 / 180) = Real.pi / 12 := by ring
  rw [hθ]
  have hs : 0 < Real.sin (Real.pi / 12) :=
    Real.sin_pos_of_pos_of_lt_pi (by positivity) (by linarith)
  have hc : 0 < Real.cos (Real.pi / 12) :=
    Real.cos_pos_of_mem_Ioo ⟨by linarith, by linarith⟩
  have h2 : Real.cos (2 * (Real.pi / 12)) = Real.sqrt 3 / 2 := by
    rw [show 2 * (Real.pi / 12) = Real.pi / 6 by ring, Real.cos_pi_div_six]
  rw [Real.cos_two_mul] at h2
  have h1 := Real.sin_sq_add_cos_sq (Real.pi / 12)
  obtain ⟨hl, hu⟩ := sqrt_three_bounds
  refine ⟨?_, ?_, ?_, ?_⟩
  · by_contra hcon
    push_neg at hcon
    nlinarith
  · by_contra hcon
    push_neg at hcon
    nlinarith
  · by_contra hcon
    push_neg at hcon
    nlinarith
  · by_contra hcon
    push_neg at hcon
    nlinarith

/-- C3: for every impact angle, a cell in the drop region is given the velocity
`(0, -sin(pi*angle/180), -cos(pi*angle/180))`, whose Euclidean norm is exactly 1; for
`angle = 15` its components are within `1e-4` of `(0, -0.2588, -0.9659)`. -/
theorem initVelocity_drop_unit (a : Args ℝ) (x y z f : ℝ) (h : inDropRegion a x y z) :
    initVelocity Real.sin Real.cos Real.pi a x y z f
      = (0, -Real.sin (Real.pi * a.impact_angle / 180),
          -Real.cos (Real.pi * a.impact_angle / 180)) ∧
    velnorm Real.sqrt (initVelocity Real.sin Real.cos Real.pi a x y z f) = 1 ∧
    (a.impact_angle = 15 →
      |(initVelocity Real.sin Real.cos Real.pi a x y z f).1 - 0| < 1e-4 ∧
      |(initVelocity Real.sin Real.cos Real.pi a x y z f).2.1 - (-0.2588)| < 1e-4 ∧
      |(initVelocity Real.sin Real.cos Real.pi a x y z f).2.2 - (-0.9659)| < 1e-4) := by
  have hv : initVelocity Real.sin Real.cos Real.pi a x y z f
      = (0, -Real.sin (Real.pi * (a.impact_angle / 180)),
          -Real.cos (Real.pi * (a.impact_angle / 180))) := by
    unfold initVelocity
    rw [if_pos h]
    unfold dropVelocity
    norm_num
  refine ⟨?_, ?_, ?_⟩
  · rw [hv, mul_div_assoc]
  · rw [hv]
    unfold velnorm sq
    have h1 := Real.sin_sq_add_cos_sq (Real.pi * (a.impact_angle / 180))
    have h2 : (0 : ℝ) * 0
        + -Real.sin (Real.pi * (a.impact_angle / 180))
          * -Real.sin (Real.pi * (a.impact_angle / 180))
        + -Real.cos (Real.pi * (a.impact_angle / 180))
          * -Real.cos (Real.pi * (a.impact_angle / 180)) = 1 := by
      nlinarith
    simp only [h2, Real.sqrt_one]
  · intro h15
    rw [hv, h15]
    obtain ⟨hs1, hs2, hc1, hc2⟩ := sin_cos_fifteen_bounds
    refine ⟨by norm_num, ?_, ?_⟩
    · rw [abs_lt]
      constructor <;> norm_num <;> linarith
    · rw [abs_lt]
      constructor <;> norm_num <;> linarith

/-- Witness of C3: impact angle 15, pool depth 2, radius 1, the cell at the drop centre
`(0, 3.1, 1.25001)`. -/
theorem initVelocity_drop_unit_witness :
    velnorm Real.sqrt
      (initVelocity Real.sin Real.cos Real.pi
        ({ (scenario : Args ℝ) with impact_angle := 15 } : Args ℝ) 0 3.1 1.25001 1) = 1 ∧
    |(initVelocity Real.sin Real.cos Real.pi
        ({ (scenario : Args ℝ) with impact_angle := 15 } : Args ℝ) 0 3.1 1.25001 1).2.1
      - (-0.2588)| < 1e-4 :=
  ⟨(initVelocity_drop_unit ({ (scenario : Args ℝ) with impact_angle := 15 } : Args ℝ)
      0 3.1 1.25001 1
      (by norm_num [inDropRegion, sqDist, sq, dropx, dropy, dropz, dropr, southPoleHeight,
        scenario])).2.1,
   ((initVelocity_drop_unit ({ (scenario : Args ℝ) with impact_angle := 15 } : Args ℝ)
      0 3.1 1.25001 1
      (by norm_num [inDropRegion, sqDist, sq, dropx, dropy, dropz, dropr, southPoleHeight,
        scenario])).2.2 rfl).2.1⟩

/-- The scenario cell `(0, 4.13, 0)` is at squared distance `1.0609 = 1.03^2` from the
drop centre `(0, 3.1, 0)`. -/
theorem sqDist_scenario_cell : sqDist (scenario : Args ℝ) 0 4.13 0 = 1.0609 := by
  norm_num [sqDist, sq, dropx, dropy, dropz, dropr, southPoleHeight, scenario]

/-- C7 (as stated, refuted): in the scenario (drop centre `(0, 3.1, 0)`, angle 90) the
cell `(0, 4.13, 0)` is at distance `1.03 < 1.05 * dropr` from the drop centre, yet
`init` gives it the pool velocity, which differs from the drop velocity. -/
theorem initVelocity_margin_not_five_percent :
    Real.sqrt (sqDist (scenario : Args ℝ) 0 4.13 0) < 1.05 * dropr ∧
    initVelocity Real.sin Real.cos Real.pi (scenario : Args ℝ) 0 4.13 0 1
      = poolVelocity (scenario : Args ℝ) 1 ∧
    initVelocity Real.sin Real.cos Real.pi (scenario : Args ℝ) 0 4.13 0 1
      ≠ dropVelocity Real.sin Real.cos Real.pi (scenario : Args ℝ) := by
  have hout : ¬ inDropRegion (scenario : Args ℝ) 0 4.13 0 := by
    unfold inDropRegion
    rw [sqDist_scenario_cell]
    norm_num [sq, dropr]
  have hv : initVelocity Real.sin Real.cos Real.pi (scenario : Args ℝ) 0 4.13 0 1
      = poolVelocity (scenario : Args ℝ) 1 := by
    unfold initVelocity
    rw [if_neg hout]
  refine ⟨?_, hv, ?_⟩
  · rw [sqDist_scenario_cell, Real.sqrt_lt' (by norm_num [dropr])]
    norm_num [dropr]
  · rw [hv]
    intro heq
    have h2 : (poolVelocity (scenario : Args ℝ) 1).2.1
        = (dropVelocity Real.sin Real.cos Real.pi (scenario : Args ℝ)).2.1 := by
      rw [heq]
    have hangle : Real.pi * ((90 : ℝ) / 180.0) = Real.pi / 2 := by
      norm_num
      ring
    simp only [poolVelocity, dropVelocity, scenario] at h2
    rw [hangle, Real.sin_pi_div_two] at h2
    norm_num at h2

/-- C7 (amended): the drop velocity is applied where the squared distance from the drop
centre is below `1.05 * dropr^2`, that is where the distance is below
`sqrt(1.05) * dropr` (less than `1.025` radii), and the pool velocity
`(0, 0, (Upool/Udrop)*f)` is applied everywhere else. -/
theorem initVelocity_region (a : Args ℝ) (x y z f : ℝ) :
    (inDropRegion a x y z ↔ sqDist a x y z < 1.05 * sq dropr) ∧
    (inDropRegion a x y z ↔ Real.sqrt (sqDist a x y z) < Real.sqrt 1.05 * dropr) ∧
    Real.sqrt 1.05 < 1.025 ∧
    (inDropRegion a x y z →
      initVelocity Real.sin Real.cos Real.pi a x y z f
        = dropVelocity Real.sin Real.cos Real.pi a) ∧
    (¬ inDropRegion a x y z →
      initVelocity Real.sin Real.cos Real.pi a x y z f = poolVelocity a f) := by
  refine ⟨Iff.rfl, ?_, ?_, ?_, ?_⟩
  · unfold inDropRegion
    rw [show (1.05 : ℝ) * sq dropr = 1.05 by norm_num [sq, dropr],
      show Real.sqrt 1.05 * (dropr : ℝ) = Real.sqrt 1.05 by norm_num [dropr],
      Real.sqrt_lt_sqrt_iff_of_pos (by norm_num)]
  · rw [Real.sqrt_lt' (by norm_num)]
    norm_num
  · intro h
    unfold initVelocity
    rw [if_pos h]
  · intro h
    unfold initVelocity
    rw [if_neg h]

/-- Witness of C7 (amended): the scenario cell `(0, 4.13, 0)` lies outside the region
and the drop centre `(0, 3.1, 0)` inside. -/
theorem initVelocity_region_witness :
    initVelocity Real.sin Real.cos Real.pi (scenario : Args ℝ) 0 3.1 0 1
      = dropVelocity Real.sin Real.cos Real.pi (scenario : Args ℝ) ∧
    initVelocity Real.sin Real.cos Real.pi (scenario : Args ℝ) 0 4.13 0 1
      = poolVelocity (scenario : Args ℝ) 1 :=
  ⟨(initVelocity_region (scenario : Args ℝ) 0 3.1 0 1).2.2.2.1
      (by norm_num [inDropRegion, sqDist, sq, dropx, dropy, dropz, dropr, southPoleHeight,
        scenario]),
   (initVelocity_region (scenario : Args ℝ) 0 4.13 0 1).2.2.2.2
      (by rw [inDropRegion, sqDist_scenario_cell]; norm_num [sq, dropr])⟩

/-! ## File names of the interface extractions -/

/-- A value in `[0, 1/2)` rounds to zero. -/
theorem roundHalfEven_small (q : ℚ) (h0 : 0 ≤ q) (h1 : q < 1 / 2) : roundHalfEven q = 0 := by
  have hfl : ⌊q⌋ = 0 := by
    rw [Int.floor_eq_zero_iff]
    exact ⟨h0, by linarith⟩
  unfold roundHalfEven
  simp only [hfl]
  norm_num
  intro h
  linarith

/-- An integer rounds to itself. -/
theorem roundHalfEven_intCast (n : Int) : roundHalfEven (n : ℚ) = n := by
  unfold roundHalfEven
  simp

/-- Every time in `[0, 0.05)` is printed as `0.0` by the conversion with one decimal. -/
theorem fmtFixed_one_small (t : ℚ) (h0 : 0 ≤ t) (h1 : t < 1 / 20) : fmtFixed 1 t = "0.0" := by
  have hr : roundHalfEven (t * (10 : ℚ) ^ 1) = 0 :=
    roundHalfEven_small _ (by positivity) (by linarith)
  unfold fmtFixed
  simp only [hr, if_neg (not_lt.mpr h0)]
  decide

theorem fmtFixed_three_first : fmtFixed 3 0.01 = "0.010" := by
  have hr : roundHalfEven ((0.01 : ℚ) * (10 : ℚ) ^ 3) = 10 := by
    rw [show (0.01 : ℚ) * (10 : ℚ) ^ 3 = ((10 : Int) : ℚ) by norm_num]
    exact roundHalfEven_intCast 10
  unfold fmtFixed
  simp only [hr]
  norm_num
  decide

theorem fmtFixed_three_second : fmtFixed 3 0.02 = "0.020" := by
  have hr : roundHalfEven ((0.02 : ℚ) * (10 : ℚ) ^ 3) = 20 := by
    rw [show (0.02 : ℚ) * (10 : ℚ) ^ 3 = ((20 : Int) : ℚ) by norm_num]
    exact roundHalfEven_intCast 20
  unfold fmtFixed
  simp only [hr]
  norm_num
  decide

/-- C6 (code evaluated at the failing input): `saveInterfaces` fires at `0.01` and at
`0.02`, two distinct times, and builds the same three file names at both
(`...-0.0.dat`), so the second firing overwrites the files of the first; the sibling
event `interfaceShapeFinder`, with three decimals, builds distinct names there. -/
theorem saveInterfaces_names_collide :
    firings saveInterfaces 3 = [0, 0.01, 0.02] ∧
    (0.01 : ℚ) ≠ 0.02 ∧
    saveInterfacesNames 0.01
      = ("Interfaces/interfacesLiquid-0.0.dat", "Interfaces/interfacesDrop-0.0.dat",
          "Interfaces/interfacesPool-0.0.dat") ∧
    saveInterfacesNames 0.02 = saveInterfacesNames 0.01 ∧
    (interfaceShapeFinderNames 0.01).1 ≠ (interfaceShapeFinderNames 0.02).1 := by
  have h1 := fmtFixed_one_small 0.01 (by norm_num) (by norm_num)
  have h2 := fmtFixed_one_small 0.02 (by norm_num) (by norm_num)
  refine ⟨?_, by norm_num, ?_, ?_, ?_⟩
  · norm_num [firings, fireFrom, saveInterfaces]
  · unfold saveInterfacesNames
    rw [h1]
    decide
  · unfold saveInterfacesNames
    rw [h1, h2]
  · unfold interfaceShapeFinderNames
    rw [fmtFixed_three_first, fmtFixed_three_second]
    decide

/-! ## Rounding to binary64 -/

end MovingPoolImpact
